import Mathlib

/-!
Verification of `test-support/helpers/a11y/helpers/color-contrast.js`.

The JavaScript module is a pure pipeline: hex color string → RGB triple →
normalized triple → relative luminance → contrast ratio.  JavaScript numbers
are modelled as `Option ℚ`: `none` models NaN (which JavaScript arithmetic
propagates), `some q` an ordinary numeric value computed exactly.  Division
by zero, which JavaScript maps to ±Infinity or NaN, is unreachable in this
module: every denominator is either NaN or at least 0.05, so rational
division is a faithful model of the reachable cases.
-/

/-- A JavaScript number: `none` models NaN, `some q` a finite value. -/
abbrev JSNum := Option ℚ

/-- JavaScript addition: NaN propagates. -/
def jadd : JSNum → JSNum → JSNum
  | some a, some b => some (a + b)
  | _, _ => none

/-- JavaScript multiplication: NaN propagates. -/
def jmul : JSNum → JSNum → JSNum
  | some a, some b => some (a * b)
  | _, _ => none

/-- JavaScript division: NaN propagates.  Division by zero is unreachable
in this module (see the module comment). -/
def jdiv : JSNum → JSNum → JSNum
  | some a, some b => some (a / b)
  | _, _ => none

/-- JavaScript `Math.max`: NaN propagates. -/
def jmax : JSNum → JSNum → JSNum
  | some a, some b => some (max a b)
  | _, _ => none

/-- JavaScript `Math.min`: NaN propagates. -/
def jmin : JSNum → JSNum → JSNum
  | some a, some b => some (min a b)
  | _, _ => none

/-- Value of a single hexadecimal digit character (`0`-`9`, `a`-`f`, `A`-`F`),
as recognized by `parseInt(_, 16)`. -/
def hexDigitVal? (c : Char) : Option ℕ :=
  if 48 ≤ c.toNat ∧ c.toNat ≤ 57 then some (c.toNat - 48)
  else if 97 ≤ c.toNat ∧ c.toNat ≤ 102 then some (c.toNat - 87)
  else if 65 ≤ c.toNat ∧ c.toNat ≤ 70 then some (c.toNat - 55)
  else none

/-- Whitespace characters trimmed by JavaScript `parseInt` (ECMAScript
WhiteSpace and LineTerminator code points). -/
def isJsSpace (c : Char) : Bool :=
  c.toNat = 9 || c.toNat = 10 || c.toNat = 11 || c.toNat = 12 || c.toNat = 13 ||
  c.toNat = 32 || c.toNat = 160 || c.toNat = 8232 || c.toNat = 8233 || c.toNat = 65279

/-- Accumulate the value of the longest run of hex digits at the front of the
list, stopping at the first non-digit (as `parseInt` does). -/
def parseHexLoop : List Char → ℕ → ℕ
  | [], acc => acc
  | c :: rest, acc =>
    match hexDigitVal? c with
    | some d => parseHexLoop rest (16 * acc + d)
    | none => acc

/-- Value of the longest nonempty run of hex digits at the front of the list;
`none` when the list does not start with a hex digit. -/
def parseHexNat : List Char → Option ℕ
  | [] => none
  | c :: rest =>
    match hexDigitVal? c with
    | some d => some (parseHexLoop rest d)
    | none => none

/-- Strip an optional leading `0x` / `0X` marker, as `parseInt(_, 16)` does. -/
def stripHex0x (l : List Char) : List Char :=
  if l.take 2 = ['0', 'x'] ∨ l.take 2 = ['0', 'X'] then l.drop 2 else l

/-- JavaScript `parseInt(s, 16)`: trim leading whitespace, accept an optional
sign and an optional `0x` marker, then read the longest run of hex digits;
the result is NaN (`none`) when no digit is read.  `parseInt` always returns
an integer-valued number or NaN, so its result is typed `Option ℤ` here and
injected into `JSNum` by `jofInt` where it meets rational arithmetic. -/
def parseIntHex (s : List Char) : Option ℤ :=
  let t := s.dropWhile isJsSpace
  if t.head? = some '-' then
    (parseHexNat (stripHex0x (t.drop 1))).map (fun n => -(n : ℤ))
  else if t.head? = some '+' then
    (parseHexNat (stripHex0x (t.drop 1))).map (fun n => (n : ℤ))
  else
    (parseHexNat (stripHex0x t)).map (fun n => (n : ℤ))

/-- Inject an integer-valued JavaScript number (or NaN) into `JSNum`. -/
def jofInt (x : Option ℤ) : JSNum :=
  x.map (fun n => (n : ℚ))

/-- JavaScript `String.prototype.substr(start, length)` on the character
list of a string, for nonnegative arguments. -/
def jsSubstr (s : List Char) (start len : ℕ) : List Char :=
  (s.drop start).take len

namespace toRGB

/-- The source's `toRGB.hex`: chunk size is 1 hex digit per channel when the
string has length 4, otherwise 2; the three chunks start at offset 1. -/
def hex (color : String) : Option ℤ × Option ℤ × Option ℤ :=
  let chunkLength := if color.length = 4 then 1 else 2
  let r := parseIntHex (jsSubstr color.toList 1 chunkLength)
  let g := parseIntHex (jsSubstr color.toList (1 + chunkLength) chunkLength)
  let b := parseIntHex (jsSubstr color.toList (1 + chunkLength * 2) chunkLength)
  (r, g, b)

end toRGB

/-- The source's `normalizeColor`: divide each channel by 255.  The input is
the (integer-valued) triple produced by the color parser. -/
def normalizeColor : Option ℤ × Option ℤ × Option ℤ → JSNum × JSNum × JSNum
  | (r, g, b) =>
    (jdiv (jofInt r) (some 255), jdiv (jofInt g) (some 255),
     jdiv (jofInt b) (some 255))

/-- The source's `relativeLuminance`: WCAG channel weights 0.2126, 0.7152,
0.0722 applied to a normalized triple. -/
def relativeLuminance : JSNum × JSNum × JSNum → JSNum
  | (r, g, b) =>
    let rs := jmul (some (2126 / 10000)) r
    let gs := jmul (some (7152 / 10000)) g
    let bs := jmul (some (722 / 10000)) b
    jadd (jadd rs gs) bs

/-- The source's `contrastRatio`: `(lighter + 0.05) / (darker + 0.05)`. -/
def contrastRatio (l1 l2 : JSNum) : JSNum :=
  let lighter := jmax l1 l2
  let darker := jmin l1 l2
  let numerator := jadd lighter (some (5 / 100))
  let denominator := jadd darker (some (5 / 100))
  jdiv numerator denominator

/-- The style object of an element-like value: the two properties the module
reads. -/
structure Style where
  color : String
  backgroundColor : String

/-- An element-like value exposing a `style`. -/
structure Elem where
  style : Style

/-- The source's `checkTextContrast(app, text, background = text)`.  The
`app` parameter is accepted (at any type) and never used. -/
def checkTextContrast {α : Sort _} (app : α) (text : Elem)
    (background : Elem := text) : JSNum :=
  let foregroundRGB := toRGB.hex text.style.color
  let backgroundRGB := toRGB.hex background.style.backgroundColor
  let normalColorFG := normalizeColor foregroundRGB
  let normalColorBG := normalizeColor backgroundRGB
  let l1 := relativeLuminance normalColorFG
  let l2 := relativeLuminance normalColorBG
  let ratio := contrastRatio l1 l2
  ratio

/-- A valid hex color string: `#` followed by exactly 3 or exactly 6 hex
digits. -/
def validHex (s : String) : Bool :=
  (s.toList.length == 4 || s.toList.length == 7) &&
  s.toList.head? == some '#' &&
  s.toList.tail.all (fun c => (hexDigitVal? c).isSome)

/-- The luminance the module computes for one hex color string. -/
def luminanceOfHex (c : String) : JSNum :=
  relativeLuminance (normalizeColor (toRGB.hex c))

/-! ## Basic evaluation lemmas -/

lemma checkTextContrast_eq {α : Sort _} (app : α) (text background : Elem) :
    checkTextContrast app text background =
      contrastRatio (luminanceOfHex text.style.color)
        (luminanceOfHex background.style.backgroundColor) := rfl

lemma contrastRatio_some (q1 q2 : ℚ) :
    contrastRatio (some q1) (some q2) =
      some ((max q1 q2 + 5 / 100) / (min q1 q2 + 5 / 100)) := rfl

lemma luminanceOfHex_of_rgb (c : String) {r g b : ℤ}
    (h : toRGB.hex c = (some r, some g, some b)) :
    luminanceOfHex c =
      some (2126 / 10000 * ((r : ℚ) / 255) + 7152 / 10000 * ((g : ℚ) / 255) +
        722 / 10000 * ((b : ℚ) / 255)) := by
  have e : luminanceOfHex c = relativeLuminance (normalizeColor (toRGB.hex c)) := rfl
  rw [e, h]
  rfl

/-! ## Facts about hex digit characters -/

lemma hexDigitVal?_ranges {c : Char} {d : ℕ} (h : hexDigitVal? c = some d) :
    (48 ≤ c.toNat ∧ c.toNat ≤ 57 ∧ d = c.toNat - 48) ∨
    (97 ≤ c.toNat ∧ c.toNat ≤ 102 ∧ d = c.toNat - 87) ∨
    (65 ≤ c.toNat ∧ c.toNat ≤ 70 ∧ d = c.toNat - 55) := by
  unfold hexDigitVal? at h
  split_ifs at h with h1 h2 h3 <;> simp_all

lemma hexDigitVal?_le {c : Char} {d : ℕ} (h : hexDigitVal? c = some d) : d ≤ 15 := by
  rcases hexDigitVal?_ranges h with ⟨h1, h2, h3⟩ | ⟨h1, h2, h3⟩ | ⟨h1, h2, h3⟩ <;> omega

lemma hexDigitVal?_not_space {c : Char} {d : ℕ} (h : hexDigitVal? c = some d) :
    isJsSpace c = false := by
  have hr := hexDigitVal?_ranges h
  simp only [isJsSpace, Bool.or_eq_false_iff, decide_eq_false_iff_not]
  omega

lemma hexDigitVal?_ne_minus {c : Char} {d : ℕ} (h : hexDigitVal? c = some d) : c ≠ '-' := by
  rintro rfl
  have hr := hexDigitVal?_ranges h
  have : ('-').toNat = 45 := rfl
  omega

lemma hexDigitVal?_ne_plus {c : Char} {d : ℕ} (h : hexDigitVal? c = some d) : c ≠ '+' := by
  rintro rfl
  have hr := hexDigitVal?_ranges h
  have : ('+').toNat = 43 := rfl
  omega

lemma hexDigitVal?_ne_x {c : Char} {d : ℕ} (h : hexDigitVal? c = some d) : c ≠ 'x' := by
  rintro rfl
  have hr := hexDigitVal?_ranges h
  have : ('x').toNat = 120 := rfl
  omega

lemma hexDigitVal?_ne_X {c : Char} {d : ℕ} (h : hexDigitVal? c = some d) : c ≠ 'X' := by
  rintro rfl
  have hr := hexDigitVal?_ranges h
  have : ('X').toNat = 88 := rfl
  omega

/-! ## Parsing a one- or two-digit hex chunk -/

lemma parseIntHex_one {c1 : Char} {d1 : ℕ} (h1 : hexDigitVal? c1 = some d1) :
    parseIntHex [c1] = some (d1 : ℤ) := by
  have hs := hexDigitVal?_not_space h1
  have hm := hexDigitVal?_ne_minus h1
  have hp := hexDigitVal?_ne_plus h1
  simp [parseIntHex, List.dropWhile, hs, hm, hp, stripHex0x, parseHexNat, parseHexLoop, h1]

lemma parseIntHex_two {c1 c2 : Char} {d1 d2 : ℕ}
    (h1 : hexDigitVal? c1 = some d1) (h2 : hexDigitVal? c2 = some d2) :
    parseIntHex [c1, c2] = some ((16 * d1 + d2 : ℕ) : ℤ) := by
  have hs := hexDigitVal?_not_space h1
  have hm := hexDigitVal?_ne_minus h1
  have hp := hexDigitVal?_ne_plus h1
  have hx := hexDigitVal?_ne_x h2
  have hX := hexDigitVal?_ne_X h2
  simp [parseIntHex, List.dropWhile, hs, hm, hp, stripHex0x, hx, hX, parseHexNat,
    parseHexLoop, h1, h2]

/-! ## Valid hex colors parse to channels in [0, 255] -/

lemma validHex_rgb {s : String} (h : validHex s = true) :
    ∃ r g b : ℕ, toRGB.hex s = (some (r : ℤ), some (g : ℤ), some (b : ℤ)) ∧
      r ≤ 255 ∧ g ≤ 255 ∧ b ≤ 255 := by
  obtain ⟨l⟩ := s
  simp only [validHex, String.toList, Bool.and_eq_true, Bool.or_eq_true, beq_iff_eq,
    List.all_eq_true, Option.isSome_iff_exists] at h
  obtain ⟨⟨hlen, hhead⟩, hall⟩ := h
  rcases hlen with h4 | h7
  · rcases l with _ | ⟨a, _ | ⟨b, _ | ⟨c, _ | ⟨d, rest⟩⟩⟩⟩ <;> simp at h4
    subst h4
    simp only [List.head?_cons, Option.some.injEq] at hhead
    subst hhead
    obtain ⟨db, hb⟩ := hall b (by simp)
    obtain ⟨dc, hc⟩ := hall c (by simp)
    obtain ⟨dd, hd⟩ := hall d (by simp)
    refine ⟨db, dc, dd, ?_, ?_, ?_, ?_⟩
    · simp [toRGB.hex, jsSubstr, String.toList,
        show (String.mk ['#', b, c, d]).length = 4 from rfl,
        parseIntHex_one hb, parseIntHex_one hc, parseIntHex_one hd]
    · exact le_trans (hexDigitVal?_le hb) (by omega)
    · exact le_trans (hexDigitVal?_le hc) (by omega)
    · exact le_trans (hexDigitVal?_le hd) (by omega)
  · rcases l with _ | ⟨a, _ | ⟨b, _ | ⟨c, _ | ⟨d, _ | ⟨e, _ | ⟨f, _ | ⟨g, rest⟩⟩⟩⟩⟩⟩⟩ <;> simp at h7
    subst h7
    simp only [List.head?_cons, Option.some.injEq] at hhead
    subst hhead
    obtain ⟨db, hb⟩ := hall b (by simp)
    obtain ⟨dc, hc⟩ := hall c (by simp)
    obtain ⟨dd, hd⟩ := hall d (by simp)
    obtain ⟨de, he⟩ := hall e (by simp)
    obtain ⟨df, hf⟩ := hall f (by simp)
    obtain ⟨dg, hg⟩ := hall g (by simp)
    refine ⟨16 * db + dc, 16 * dd + de, 16 * df + dg, ?_, ?_, ?_, ?_⟩
    · simp [toRGB.hex, jsSubstr, String.toList,
        show (String.mk ['#', b, c, d, e, f, g]).length = 7 from rfl,
        parseIntHex_two hb hc, parseIntHex_two hd he, parseIntHex_two hf hg]
    · have := hexDigitVal?_le hb; have := hexDigitVal?_le hc; omega
    · have := hexDigitVal?_le hd; have := hexDigitVal?_le he; omega
    · have := hexDigitVal?_le hf; have := hexDigitVal?_le hg; omega

/-! ## Luminance and ratio bounds -/

lemma validHex_lum {s : String} (h : validHex s = true) :
    ∃ q : ℚ, luminanceOfHex s = some q ∧ 0 ≤ q ∧ q ≤ 1 := by
  obtain ⟨r, g, b, hrgb, hr, hg, hb⟩ := validHex_rgb h
  refine ⟨_, luminanceOfHex_of_rgb _ hrgb, ?_, ?_⟩
  · positivity
  · have hr' : (((r : ℕ) : ℤ) : ℚ) ≤ 255 := by exact_mod_cast hr
    have hg' : (((g : ℕ) : ℤ) : ℚ) ≤ 255 := by exact_mod_cast hg
    have hb' : (((b : ℕ) : ℤ) : ℚ) ≤ 255 := by exact_mod_cast hb
    linarith

lemma ratio_bound {l1 l2 : ℚ} (h10 : 0 ≤ l1) (h11 : l1 ≤ 1) (h20 : 0 ≤ l2) (h21 : l2 ≤ 1) :
    1 ≤ (max l1 l2 + 5 / 100) / (min l1 l2 + 5 / 100) ∧
    (max l1 l2 + 5 / 100) / (min l1 l2 + 5 / 100) ≤ 21 := by
  have hm : 0 ≤ min l1 l2 := le_min h10 h20
  have hM : max l1 l2 ≤ 1 := max_le h11 h21
  have hmM : min l1 l2 ≤ max l1 l2 := min_le_max
  have hpos : 0 < min l1 l2 + 5 / 100 := by linarith
  constructor
  · rw [one_le_div hpos]
    linarith
  · rw [div_le_iff₀ hpos]
    linarith

/-! ## NaN propagation -/

lemma contrastRatio_eq_none_iff (l1 l2 : JSNum) :
    contrastRatio l1 l2 = none ↔ l1 = none ∨ l2 = none := by
  rcases l1 with _ | q1 <;> rcases l2 with _ | q2 <;>
    simp [contrastRatio, jmax, jmin, jadd, jdiv]

lemma luminanceOfHex_eq_none_iff (c : String) :
    luminanceOfHex c = none ↔
      (toRGB.hex c).1 = none ∨ (toRGB.hex c).2.1 = none ∨ (toRGB.hex c).2.2 = none := by
  have e : luminanceOfHex c = relativeLuminance (normalizeColor (toRGB.hex c)) := rfl
  rcases hrgb : toRGB.hex c with ⟨r, g, b⟩
  rw [e, hrgb]
  rcases r with _ | r <;> rcases g with _ | g <;> rcases b with _ | b <;>
    simp [normalizeColor, relativeLuminance, jofInt, jdiv, jmul, jadd]

/-! ## Claims -/

/-- C1: the claimed shorthand equivalence fails in the code: with the
background fixed at `#000000`, the shorthand text color `#fff` yields 37/17
(≈ 2.18) while its expanded form `#ffffff` yields 21, because the parser
reads one hex digit per channel without rescaling it to the [0, 255] range. -/
theorem checkTextContrast_shorthand_divergence :
    checkTextContrast (0 : ℕ) ⟨⟨"#fff", "#fff"⟩⟩ ⟨⟨"#000000", "#000000"⟩⟩ = some (37 / 17) ∧
    checkTextContrast (0 : ℕ) ⟨⟨"#ffffff", "#ffffff"⟩⟩ ⟨⟨"#000000", "#000000"⟩⟩ = some 21 ∧
    (37 / 17 : ℚ) ≠ 21 := by
  have h1 : toRGB.hex "#fff" = (some 15, some 15, some 15) := by decide
  have h2 : toRGB.hex "#000000" = (some 0, some 0, some 0) := by decide
  have h3 : toRGB.hex "#ffffff" = (some 255, some 255, some 255) := by decide
  refine ⟨?_, ?_, by norm_num⟩
  · rw [checkTextContrast_eq, luminanceOfHex_of_rgb _ h1, luminanceOfHex_of_rgb _ h2,
      contrastRatio_some]
    norm_num [max_def, min_def]
  · rw [checkTextContrast_eq, luminanceOfHex_of_rgb _ h3, luminanceOfHex_of_rgb _ h2,
      contrastRatio_some]
    norm_num [max_def, min_def]

/-- C3: black text (`#000000`) on a white background (`#ffffff`) yields a
contrast ratio of exactly 21. -/
theorem checkTextContrast_black_on_white {α : Sort _} (app : α) :
    checkTextContrast app ⟨⟨"#000000", "#000000"⟩⟩ ⟨⟨"#ffffff", "#ffffff"⟩⟩ = some 21 := by
  have h1 : toRGB.hex "#000000" = (some 0, some 0, some 0) := by decide
  have h2 : toRGB.hex "#ffffff" = (some 255, some 255, some 255) := by decide
  rw [checkTextContrast_eq, luminanceOfHex_of_rgb _ h1, luminanceOfHex_of_rgb _ h2,
    contrastRatio_some]
  norm_num [max_def, min_def]

/-- C5: `contrastRatio` is symmetric in its two arguments (including the NaN
cases). -/
theorem contrastRatio_comm (l1 l2 : JSNum) : contrastRatio l1 l2 = contrastRatio l2 l1 := by
  rcases l1 with _ | q1 <;> rcases l2 with _ | q2 <;>
    simp [contrastRatio, jmax, jmin, jadd, jdiv, max_comm, min_comm]

/-- C7: omitting the background argument behaves exactly like passing the
text element itself as the background. -/
theorem checkTextContrast_default_background {α : Sort _} (app : α) (text : Elem) :
    checkTextContrast app text = checkTextContrast app text text := rfl

/-- C9: the `app` parameter has no effect on the result, whatever its value
or even its type. -/
theorem checkTextContrast_app_irrelevant {α β : Sort _} (a1 : α) (a2 : β)
    (text background : Elem) :
    checkTextContrast a1 text background = checkTextContrast a2 text background := rfl

/-- C10: the result depends only on the strings `text.style.color` and
`background.style.backgroundColor`; all other parts of the arguments are
irrelevant. -/
theorem checkTextContrast_depends_only_on_colors {α β : Sort _} (a1 : α) (a2 : β)
    (t1 t2 b1 b2 : Elem) (hc : t1.style.color = t2.style.color)
    (hb : b1.style.backgroundColor = b2.style.backgroundColor) :
    checkTextContrast a1 t1 b1 = checkTextContrast a2 t2 b2 := by
  rw [checkTextContrast_eq, checkTextContrast_eq, hc, hb]

/-- Witness for C10 at concrete elements that differ everywhere except in
the two relevant color strings. -/
theorem checkTextContrast_depends_only_on_colors_witness :
    checkTextContrast (0 : ℕ) ⟨⟨"#fff", "#111111"⟩⟩ ⟨⟨"#222222", "#000000"⟩⟩ =
      checkTextContrast "ctx" ⟨⟨"#fff", "#333333"⟩⟩ ⟨⟨"#444444", "#000000"⟩⟩ :=
  checkTextContrast_depends_only_on_colors 0 "ctx" _ _ _ _ rfl rfl

/-- C2: for valid hex color pairs the returned ratio is a number between 1
and 21. -/
theorem checkTextContrast_range {α : Sort _} (app : α) (text background : Elem)
    (h1 : validHex text.style.color = true)
    (h2 : validHex background.style.backgroundColor = true) :
    ∃ q : ℚ, checkTextContrast app text background = some q ∧ 1 ≤ q ∧ q ≤ 21 := by
  obtain ⟨q1, e1, hq10, hq11⟩ := validHex_lum h1
  obtain ⟨q2, e2, hq20, hq21⟩ := validHex_lum h2
  refine ⟨(max q1 q2 + 5 / 100) / (min q1 q2 + 5 / 100), ?_,
    (ratio_bound hq10 hq11 hq20 hq21).1, (ratio_bound hq10 hq11 hq20 hq21).2⟩
  rw [checkTextContrast_eq, e1, e2, contrastRatio_some]

/-- Witness for C2 at the spec's minimum-passing gray on white. -/
theorem checkTextContrast_range_witness :
    validHex "#767676" = true ∧ validHex "#ffffff" = true ∧
    ∃ q : ℚ, checkTextContrast (0 : ℕ) ⟨⟨"#767676", "#767676"⟩⟩
      ⟨⟨"#ffffff", "#ffffff"⟩⟩ = some q ∧ 1 ≤ q ∧ q ≤ 21 :=
  ⟨by decide, by decide, checkTextContrast_range 0 _ _ (by decide) (by decide)⟩

/-- C4: a valid hex color compared against itself yields exactly 1. -/
theorem checkTextContrast_self_eq_one {α : Sort _} (app : α) (c : String)
    (text background : Elem) (hv : validHex c = true)
    (ht : text.style.color = c) (hb : background.style.backgroundColor = c) :
    checkTextContrast app text background = some 1 := by
  obtain ⟨q, e, hq0, hq1⟩ := validHex_lum hv
  rw [checkTextContrast_eq, ht, hb, e, contrastRatio_some, max_self, min_self,
    div_self (by linarith : (q + 5 / 100) ≠ 0)]

/-- Witness for C4 at the shorthand color `#fff`. -/
theorem checkTextContrast_self_eq_one_witness :
    validHex "#fff" = true ∧
    checkTextContrast (0 : ℕ) ⟨⟨"#fff", "#fff"⟩⟩ ⟨⟨"#fff", "#fff"⟩⟩ = some 1 :=
  ⟨by decide, checkTextContrast_self_eq_one 0 "#fff" _ _ (by decide) rfl rfl⟩

/-- C6 fails as stated: with the background luminance fixed at 1/2, the
foreground 31/50 is strictly further away (distance 3/25) than 2/5
(distance 1/10), yet its ratio 67/55 is smaller than 11/9.  Moving further
from the background on the other side of it can decrease the ratio. -/
theorem contrastRatio_abs_monotone_cex :
    ((0 : ℚ) ≤ 1 / 2 ∧ (1 / 2 : ℚ) ≤ 1) ∧
    ((0 : ℚ) ≤ 2 / 5 ∧ (2 / 5 : ℚ) ≤ 1) ∧
    ((0 : ℚ) ≤ 31 / 50 ∧ (31 / 50 : ℚ) ≤ 1) ∧
    |(31 : ℚ) / 50 - 1 / 2| > |(2 : ℚ) / 5 - 1 / 2| ∧
    contrastRatio (some (2 / 5)) (some (1 / 2)) = some (11 / 9) ∧
    contrastRatio (some (31 / 50)) (some (1 / 2)) = some (67 / 55) ∧
    ¬ ((11 / 9 : ℚ) < 67 / 55) := by
  refine ⟨⟨by norm_num, by norm_num⟩, ⟨by norm_num, by norm_num⟩,
    ⟨by norm_num, by norm_num⟩, ?_, ?_, ?_, by norm_num⟩
  · rw [show ((31 : ℚ) / 50 - 1 / 2) = 3 / 25 by norm_num,
      show ((2 : ℚ) / 5 - 1 / 2) = -(1 / 10) by norm_num, abs_neg,
      abs_of_pos (by norm_num), abs_of_pos (by norm_num)]
    norm_num
  · rw [contrastRatio_some]
    norm_num [max_def, min_def]
  · rw [contrastRatio_some]
    norm_num [max_def, min_def]

/-- C6 amended: with the background luminance fixed, moving the foreground
luminance strictly further away on the same side of the background strictly
increases the ratio. -/
theorem contrastRatio_monotone_same_side {b f1 f2 : ℚ}
    (hb0 : 0 ≤ b) (hb1 : b ≤ 1) (hf10 : 0 ≤ f1) (hf11 : f1 ≤ 1)
    (hf20 : 0 ≤ f2) (hf21 : f2 ≤ 1)
    (hside : (b ≤ f1 ∧ f1 < f2) ∨ (f2 < f1 ∧ f1 ≤ b)) :
    ∃ q1 q2 : ℚ, contrastRatio (some f1) (some b) = some q1 ∧
      contrastRatio (some f2) (some b) = some q2 ∧ q1 < q2 := by
  refine ⟨_, _, contrastRatio_some f1 b, contrastRatio_some f2 b, ?_⟩
  rcases hside with ⟨hbf, hlt⟩ | ⟨hlt, hfb⟩
  · rw [max_eq_left hbf, min_eq_right hbf, max_eq_left (le_trans hbf hlt.le),
      min_eq_right (le_trans hbf hlt.le)]
    have hpos : 0 < b + 5 / 100 := by linarith
    rw [div_lt_div_iff₀ hpos hpos]
    nlinarith
  · rw [max_eq_right hfb, min_eq_left hfb, max_eq_right (hlt.le.trans hfb),
      min_eq_left (hlt.le.trans hfb)]
    have h1 : 0 < f1 + 5 / 100 := by linarith
    have h2 : 0 < f2 + 5 / 100 := by linarith
    have h3 : 0 < b + 5 / 100 := by linarith
    rw [div_lt_div_iff₀ h1 h2]
    nlinarith

/-- Witness for the amended C6: background 0, foregrounds 1/2 and 1. -/
theorem contrastRatio_monotone_same_side_witness :
    ∃ q1 q2 : ℚ, contrastRatio (some (1 / 2)) (some 0) = some q1 ∧
      contrastRatio (some 1) (some 0) = some q2 ∧ q1 < q2 :=
  contrastRatio_monotone_same_side (by norm_num) (by norm_num) (by norm_num)
    (by norm_num) (by norm_num) (by norm_num) (Or.inl ⟨by norm_num, by norm_num⟩)

/-- C8 fails as stated: `#ffffffff` is not a valid hex color (eight digits),
yet the function returns the ordinary number 1 for it, because the parser
happily reads the first six digits.  Not every malformed color string
produces a not-a-number result. -/
theorem checkTextContrast_invalid_number_cex :
    validHex "#ffffffff" = false ∧
    checkTextContrast (0 : ℕ) ⟨⟨"#ffffffff", "#ffffffff"⟩⟩
      ⟨⟨"#ffffffff", "#ffffffff"⟩⟩ = some 1 := by
  refine ⟨by decide, ?_⟩
  have h : toRGB.hex "#ffffffff" = (some 255, some 255, some 255) := by decide
  rw [checkTextContrast_eq, luminanceOfHex_of_rgb _ h, contrastRatio_some]
  norm_num [max_def, min_def]

/-- C8 amended: the function never raises; its result is not-a-number
exactly when one of the six channel substrings fails to parse as a hex
number, and an ordinary number otherwise (even for malformed colors). -/
theorem checkTextContrast_nan_iff {α : Sort _} (app : α) (text background : Elem) :
    checkTextContrast app text background = none ↔
      (toRGB.hex text.style.color).1 = none ∨
      (toRGB.hex text.style.color).2.1 = none ∨
      (toRGB.hex text.style.color).2.2 = none ∨
      (toRGB.hex background.style.backgroundColor).1 = none ∨
      (toRGB.hex background.style.backgroundColor).2.1 = none ∨
      (toRGB.hex background.style.backgroundColor).2.2 = none := by
  rw [checkTextContrast_eq, contrastRatio_eq_none_iff, luminanceOfHex_eq_none_iff,
    luminanceOfHex_eq_none_iff]
  tauto
